import Mathlib

/-!
Shallow embedding of the termichan command-generation core:
  - src/termichan-config/src/config.rs  (settings model, ConfirmationMode)
  - src/termichan-llm/src/lib.rs        (LlmService: new, chat_completion,
                                         stream_chat_completion)
Machine integers are modelled as Nat with explicit `% 2 ^ 16` where the source
narrows with `as u16`; fallible code returns Except; the unguarded vector index
`response.choices[0]` is modelled by an Option-valued outcome whose `none`
stands for the Rust panic.  f32 fields carry no arithmetic in the embedded
code (they are only copied into the request), so they are modelled as `Float`
and reasoned about purely structurally.
-/

/-- Confirmation policy enum, from src/termichan-config/src/config.rs
(`ConfirmationMode`): `Always` | `Never` | `Dangerous`. -/
inductive ConfirmationMode
  | Always
  | Never
  | Dangerous
  deriving DecidableEq, Repr

/-- LLM settings, from src/termichan-config/src/config.rs (`LlmConfig`).
`max_tokens` is `Option<u32>` in the source (modelled as Nat), `timeout_secs`
is `u64`, `temperature`/`top_p` are `f32`. -/
structure LlmConfig where
  provider : String
  api_key : Option String
  base_url : Option String
  model : String
  temperature : Float
  top_p : Option Float
  max_tokens : Option Nat
  timeout_secs : Nat

/-- Message role, from async_openai's request message shape as used by the
conversation model (System | User | Assistant). -/
inductive Role
  | system
  | user
  | assistant
  deriving DecidableEq, Repr

/-- One role-tagged conversation message (`ChatCompletionRequestMessage` as
consumed by `chat_completion` / `stream_chat_completion`). -/
structure ChatMessage where
  role : Role
  content : String
  deriving DecidableEq, Repr

/-- Stand-in for `async_openai::error::OpenAIError`: opaque at this layer,
only carried through into `LlmError::ApiError`. -/
structure OpenAIError where
  msg : String
  deriving DecidableEq, Repr

/-- Error type of the service, from src/termichan-llm/src/lib.rs (`LlmError`):
exactly the three variants `ApiKeyMissing`, `ApiError(OpenAIError)` and
`EmptyResponse`. -/
inductive LlmError
  | ApiKeyMissing
  | ApiError (e : OpenAIError)
  | EmptyResponse
  deriving DecidableEq, Repr

/-- The provider request built by both completion paths.  Mirrors the fields
`CreateChatCompletionRequestArgs` sets in src/termichan-llm/src/lib.rs:
model and messages unconditionally, temperature unconditionally, `top_p` and
`max_tokens` only via the conditional setters.  `max_tokens` is `u16` in
async_openai, hence holds the narrowed value. -/
structure CreateChatCompletionRequest where
  model : String
  messages : List ChatMessage
  temperature : Option Float
  top_p : Option Float
  max_tokens : Option Nat
  deriving Repr

/-- Response message of one blocking-mode choice
(`ChatCompletionResponseMessage`): textual content is optional. -/
structure ChatResponseMessage where
  role : Role
  content : Option String
  deriving DecidableEq, Repr

/-- One choice of a blocking-mode provider response (`ChatChoice`). -/
structure ChatChoice where
  message : ChatResponseMessage
  finish_reason : Option String
  deriving DecidableEq, Repr

/-- Blocking-mode provider response (`CreateChatCompletionResponse`):
a list of choices, possibly empty. -/
structure CreateChatCompletionResponse where
  choices : List ChatChoice
  deriving DecidableEq, Repr

/-- Delta carried by one streaming frame choice
(`ChatCompletionStreamResponseDelta`): both role and content are optional, so
role-only frames are representable. -/
structure ChatStreamDelta where
  role : Option Role
  content : Option String
  deriving DecidableEq, Repr

/-- One choice of a streaming frame (`ChatChoiceStream`). -/
structure ChatStreamChoice where
  delta : ChatStreamDelta
  finish_reason : Option String
  deriving DecidableEq, Repr

/-- One streaming frame (`CreateChatCompletionStreamResponse`): a list of
choices, possibly empty. -/
structure ChatStreamChunk where
  choices : List ChatStreamChoice
  deriving DecidableEq, Repr

/-- The client configuration built by `LlmService::new` from
`OpenAIConfig::new().with_api_key(..).with_api_base(..)`. -/
structure OpenAIClientConfig where
  api_key : String
  api_base : String
  deriving DecidableEq, Repr

/-- The service struct, from src/termichan-llm/src/lib.rs (`LlmService`):
a configured client plus the settings. -/
structure LlmService where
  client : OpenAIClientConfig
  config : LlmConfig

/-- `LlmService::new` (src/termichan-llm/src/lib.rs lines 41-61): fails with
`ApiKeyMissing` when `config.api_key` is `None`; otherwise builds the client
from the key and the base URL (defaulted to the OpenAI endpoint) and succeeds.
It is a pure constructor: no request is built and no provider is contacted
(the embedding gives it no provider argument at all). -/
def LlmService.new (config : LlmConfig) : Except LlmError LlmService :=
  match config.api_key with
  | none => Except.error LlmError.ApiKeyMissing
  | some key =>
    let api_base :=
      match config.base_url with
      | some u => u
      | none => "https://api.openai.com/v1"
    Except.ok { client := { api_key := key, api_base := api_base }, config := config }

/-- Request construction shared verbatim by `chat_completion` (lines 81-95)
and `stream_chat_completion` (lines 127-141): model, messages and temperature
are set unconditionally; `top_p` is set only when `config.top_p` is `Some`;
`max_tokens` is set only when `config.max_tokens` is `Some`, narrowed by
`as u16`, i.e. reduced modulo 2 ^ 16.  `request_builder.build()` only fails
when a required field was never set; model and messages always are, so the
embedded builder is total. -/
def buildRequest (config : LlmConfig) (messages : List ChatMessage) :
    CreateChatCompletionRequest :=
  { model := config.model
    messages := messages
    temperature := some config.temperature
    top_p :=
      match config.top_p with
      | some p => some p
      | none => none
    max_tokens :=
      match config.max_tokens with
      | some n => some (n % 2 ^ 16)
      | none => none }

/-- `chat_completion` (src/termichan-llm/src/lib.rs lines 76-108).  The network
client is abstracted as a `provider` function from the built request to the
provider's answer.  The first component of the result is the trace of provider
invocations (the requests actually sent), for observing call counts with a
stub; the second is the outcome, where `none` models the panic of the
unguarded index `response.choices[0]` on an empty choices vector. -/
def chat_completion (config : LlmConfig)
    (provider : CreateChatCompletionRequest → Except OpenAIError CreateChatCompletionResponse)
    (messages : List ChatMessage) :
    List CreateChatCompletionRequest × Option (Except LlmError String) :=
  let request := buildRequest config messages
  match provider request with
  | Except.error e => ([request], some (Except.error (LlmError.ApiError e)))
  | Except.ok response =>
    match response.choices with
    | [] => ([request], none)
    | choice :: _ =>
      match choice.message.content with
      | some content => ([request], some (Except.ok content))
      | none => ([request], some (Except.error LlmError.EmptyResponse))

/-- The per-frame closure of `stream.map` in `stream_chat_completion`
(src/termichan-llm/src/lib.rs lines 151-166): an `Ok` frame whose first choice
carries a content delta maps to `Ok(content)`; an `Ok` frame whose first
choice has no content delta, or which has no choices at all
(`chunk.choices.first()` is `None`), maps to `Err(EmptyResponse)`; an `Err`
frame maps to `Err(ApiError)`. -/
def mapStreamChunk (chunk : Except OpenAIError ChatStreamChunk) :
    Except LlmError String :=
  match chunk with
  | Except.ok c =>
    match c.choices with
    | choice :: _ =>
      match choice.delta.content with
      | some content => Except.ok content
      | none => Except.error LlmError.EmptyResponse
    | [] => Except.error LlmError.EmptyResponse
  | Except.error e => Except.error (LlmError.ApiError e)

/-- `stream_chat_completion` (src/termichan-llm/src/lib.rs lines 122-169).
The transport is abstracted as `createStream`: given the built request it
either fails up front (mapped to `ApiError`) or yields the finite sequence of
raw frames the connection delivers; the embedded stream is that sequence
mapped element-wise by `mapStreamChunk`, exactly as `stream.map` does. -/
def stream_chat_completion (config : LlmConfig)
    (createStream : CreateChatCompletionRequest →
      Except OpenAIError (List (Except OpenAIError ChatStreamChunk)))
    (messages : List ChatMessage) :
    Except LlmError (List (Except LlmError String)) :=
  let request := buildRequest config messages
  match createStream request with
  | Except.error e => Except.error (LlmError.ApiError e)
  | Except.ok frames => Except.ok (frames.map mapStreamChunk)

/-- Modelled from the spec: the safety-gate decision function
`requires_confirmation(mode, command, dangerous_commands)` of spec section 4.4
is absent from src/ — the repository only declares `ConfirmationMode` and the
`dangerous_commands` list (src/termichan-config/src/config.rs lines 110-139);
no code evaluates them.  Per the spec: `Always` is true unconditionally,
`Never` is false unconditionally, and `Dangerous` is true iff the untrimmed
command starts, case-sensitively, with some entry of the list. -/
def requires_confirmation (mode : ConfirmationMode) (command : String)
    (dangerous_commands : List String) : Bool :=
  match mode with
  | ConfirmationMode.Always => true
  | ConfirmationMode.Never => false
  | ConfirmationMode.Dangerous =>
    dangerous_commands.any (fun p => command.startsWith p)

/-! Concrete values used by witnesses and counterexamples. -/

/-- A fully-populated settings value (the source's defaults: openai, gpt-4o,
temperature 0.7, max_tokens 1500, timeout 60s) with an API key present. -/
def demoConfig : LlmConfig :=
  { provider := "openai"
    api_key := some "sk-demo"
    base_url := none
    model := "gpt-4o"
    temperature := 0.7
    top_p := none
    max_tokens := some 1500
    timeout_secs := 60 }

/-- `demoConfig` with the API key absent. -/
def noKeyConfig : LlmConfig :=
  { demoConfig with api_key := none }

/-- `demoConfig` with a max-token setting that exceeds the u16 range. -/
def bigTokConfig : LlmConfig :=
  { demoConfig with max_tokens := some 70000 }

/-- A one-message conversation. -/
def demoMessages : List ChatMessage :=
  [{ role := Role.user, content := "list files" }]

/-- Call-counting stub provider answering every request with one choice whose
content is the plain text "ls". -/
def okStub (_ : CreateChatCompletionRequest) :
    Except OpenAIError CreateChatCompletionResponse :=
  Except.ok
    { choices :=
        [{ message := { role := Role.assistant, content := some "ls" }
           finish_reason := some "stop" }] }

/-- Stub provider whose first (and only) choice carries text surrounded by
whitespace. -/
def wsStub (_ : CreateChatCompletionRequest) :
    Except OpenAIError CreateChatCompletionResponse :=
  Except.ok
    { choices :=
        [{ message := { role := Role.assistant, content := some "  ls\n" }
           finish_reason := some "stop" }] }

/-- Stub provider whose first choice exists but has null content. -/
def nullContentStub (_ : CreateChatCompletionRequest) :
    Except OpenAIError CreateChatCompletionResponse :=
  Except.ok
    { choices :=
        [{ message := { role := Role.assistant, content := none }
           finish_reason := some "stop" }] }

/-- Stub provider answering with an empty choices vector. -/
def emptyChoicesStub (_ : CreateChatCompletionRequest) :
    Except OpenAIError CreateChatCompletionResponse :=
  Except.ok { choices := [] }

/-! Theorems settling the claims. -/

/-- C1: the safety-gate decision is fully determined by the mode: `Always`
gives true for every command (the empty command included), `Never` gives
false, and `Dangerous` gives true iff the untrimmed command starts
case-sensitively with at least one entry of the dangerous-prefix list. -/
theorem C1_requires_confirmation_by_mode (command : String)
    (dangerous_commands : List String) :
    requires_confirmation ConfirmationMode.Always command dangerous_commands = true ∧
    requires_confirmation ConfirmationMode.Never command dangerous_commands = false ∧
    (requires_confirmation ConfirmationMode.Dangerous command dangerous_commands = true ↔
      ∃ p ∈ dangerous_commands, command.startsWith p = true) := by
  refine ⟨rfl, rfl, ?_⟩
  simp [requires_confirmation, List.any_eq_true]

/-- C2 counterexample: on the empty conversation, `chat_completion` does not
fail before the network call — a call-counting stub provider observes exactly
one invocation (not zero), carrying the request built from the empty message
list, and the run succeeds with the stub's answer instead of signalling any
`InvalidConversation` condition. -/
theorem C2_counterexample :
    (chat_completion demoConfig okStub []).1.length = 1 ∧
    (chat_completion demoConfig okStub []).1 = [buildRequest demoConfig []] ∧
    (chat_completion demoConfig okStub []).2 = some (Except.ok "ls") := by
  refine ⟨rfl, rfl, rfl⟩

/-- C2 amended: building a request from an empty conversation does not fail
at all — for every conversation, the empty one included, `chat_completion`
builds the request and invokes the provider exactly once with it; moreover the
error type has no `InvalidConversation` variant: every `LlmError` is
`ApiKeyMissing`, `ApiError` or `EmptyResponse`. -/
theorem C2_empty_conversation_not_rejected (config : LlmConfig)
    (provider : CreateChatCompletionRequest → Except OpenAIError CreateChatCompletionResponse)
    (messages : List ChatMessage) :
    (chat_completion config provider messages).1 = [buildRequest config messages] ∧
    ∀ e : LlmError, e = LlmError.ApiKeyMissing ∨
      (∃ o, e = LlmError.ApiError o) ∨ e = LlmError.EmptyResponse := by
  constructor
  · cases h : provider (buildRequest config messages) with
    | error e => simp [chat_completion, h]
    | ok response =>
      cases hr : response.choices with
      | nil => simp [chat_completion, h, hr]
      | cons choice rest =>
        cases hc : choice.message.content <;> simp [chat_completion, h, hr, hc]
  · intro e
    cases e with
    | ApiKeyMissing => exact Or.inl rfl
    | ApiError o => exact Or.inr (Or.inl ⟨o, rfl⟩)
    | EmptyResponse => exact Or.inr (Or.inr rfl)

/-- Trimming on the character-list model of a string: drop whitespace from
the front, then from the back.  Stands for the spec's "surrounding whitespace
trimmed" (Rust `str::trim`), stated over `String.data` so that concrete
instances evaluate. -/
def trimChars (l : List Char) : List Char :=
  ((l.dropWhile Char.isWhitespace).reverse.dropWhile Char.isWhitespace).reverse

/-- C3 counterexample: when the provider's first choice carries the text
"  ls\n" (surrounding whitespace included), `chat_completion` returns that
text verbatim, which differs from its trimmed form "ls" — the result is not
trimmed as the claim states. -/
theorem C3_counterexample :
    (chat_completion demoConfig wsStub demoMessages).2 = some (Except.ok "  ls\n") ∧
    trimChars ("  ls\n".data) = "ls".data ∧
    ("  ls\n" : String) ≠ "ls" := by
  refine ⟨rfl, by decide, by decide⟩

/-- C3 amended: for every provider response whose first choice carries textual
content, `chat_completion` returns that first choice's text unchanged — no
whitespace trimming is applied — and ignores every subsequent choice (the
result is the same for every tail of the choices list). -/
theorem C3_first_choice_text_untrimmed (config : LlmConfig)
    (provider : CreateChatCompletionRequest → Except OpenAIError CreateChatCompletionResponse)
    (messages : List ChatMessage) (choice : ChatChoice) (rest : List ChatChoice)
    (content : String)
    (hp : provider (buildRequest config messages) =
      Except.ok { choices := choice :: rest })
    (hc : choice.message.content = some content) :
    (chat_completion config provider messages).2 = some (Except.ok content) := by
  unfold chat_completion
  simp [hp, hc]

/-- C3 witness: the amended theorem applied to `wsStub`, whose single choice
carries "  ls\n"; the result is that text verbatim. -/
theorem C3_first_choice_text_untrimmed_witness :
    (chat_completion demoConfig wsStub demoMessages).2 = some (Except.ok "  ls\n") :=
  C3_first_choice_text_untrimmed demoConfig wsStub demoMessages
    { message := { role := Role.assistant, content := some "  ls\n" }
      finish_reason := some "stop" }
    [] "  ls\n" rfl rfl

/-- C4: for every provider response whose first choice exists but carries null
content, `chat_completion` returns `Err(EmptyResponse)` — the outcome is
`some` (no panic) and carries the `EmptyResponse` error, not a sentinel
string. -/
theorem C4_null_content_is_empty_response (config : LlmConfig)
    (provider : CreateChatCompletionRequest → Except OpenAIError CreateChatCompletionResponse)
    (messages : List ChatMessage) (choice : ChatChoice) (rest : List ChatChoice)
    (hp : provider (buildRequest config messages) =
      Except.ok { choices := choice :: rest })
    (hc : choice.message.content = none) :
    (chat_completion config provider messages).2 =
      some (Except.error LlmError.EmptyResponse) := by
  unfold chat_completion
  simp [hp, hc]

/-- C4 witness: the theorem applied to `nullContentStub`, whose single choice
has null content. -/
theorem C4_null_content_is_empty_response_witness :
    (chat_completion demoConfig nullContentStub demoMessages).2 =
      some (Except.error LlmError.EmptyResponse) :=
  C4_null_content_is_empty_response demoConfig nullContentStub demoMessages
    { message := { role := Role.assistant, content := none }
      finish_reason := some "stop" }
    [] rfl rfl

/-- C5: the built request carries `top_p` exactly as configured (present iff
the setting is `Some`, with the identical value, since the conditional setter
copies it), and carries a max-token cap iff `max_tokens` is `Some`; when
either setting is `None` the corresponding request field is `none` (omitted),
never a sentinel. -/
theorem C5_optional_sampling_params (config : LlmConfig)
    (messages : List ChatMessage) :
    (buildRequest config messages).top_p = config.top_p ∧
    ((buildRequest config messages).max_tokens = none ↔ config.max_tokens = none) := by
  constructor
  · cases h : config.top_p <;> simp [buildRequest, h]
  · cases h : config.max_tokens <;> simp [buildRequest, h]

/-- A streaming frame announcing only the assistant role (no content delta). -/
def roleOnlyChunk : ChatStreamChunk :=
  { choices :=
      [{ delta := { role := some Role.assistant, content := none }
         finish_reason := none }] }

/-- A streaming frame carrying the content delta "ls". -/
def contentChunk : ChatStreamChunk :=
  { choices :=
      [{ delta := { role := none, content := some "ls" }
         finish_reason := none }] }

/-- A finish-reason-only streaming frame (no content delta). -/
def finishChunk : ChatStreamChunk :=
  { choices :=
      [{ delta := { role := none, content := none }
         finish_reason := some "stop" }] }

/-- A concrete successful frame sequence: role announcement, one content
delta, then the finish frame. -/
def demoFrames : List (Except OpenAIError ChatStreamChunk) :=
  [Except.ok roleOnlyChunk, Except.ok contentChunk, Except.ok finishChunk]

/-- Transport stub delivering `demoFrames` for every request. -/
def demoStream (_ : CreateChatCompletionRequest) :
    Except OpenAIError (List (Except OpenAIError ChatStreamChunk)) :=
  Except.ok demoFrames

/-- Transport stub that delivers one content frame and then fails mid-stream
with a connection reset. -/
def failStream (_ : CreateChatCompletionRequest) :
    Except OpenAIError (List (Except OpenAIError ChatStreamChunk)) :=
  Except.ok [Except.ok contentChunk, Except.error { msg := "connection reset" }]

/-- C6: each successfully received frame is mapped independently to exactly
one output element — the output has one element per frame, at the frame's
position, computed from that frame alone — and for an `Ok` frame the element
is `Ok(delta)` iff the first choice carries a content delta, and
`Err(EmptyResponse)` iff it carries none (role-only, finish-reason-only or
choice-less frames), never silently dropped. -/
theorem C6_frames_mapped_independently (config : LlmConfig)
    (createStream : CreateChatCompletionRequest →
      Except OpenAIError (List (Except OpenAIError ChatStreamChunk)))
    (messages : List ChatMessage)
    (frames : List (Except OpenAIError ChatStreamChunk))
    (hs : createStream (buildRequest config messages) = Except.ok frames) :
    stream_chat_completion config createStream messages =
      Except.ok (frames.map mapStreamChunk) ∧
    (frames.map mapStreamChunk).length = frames.length ∧
    (∀ i : Nat, (frames.map mapStreamChunk)[i]? = (frames[i]?).map mapStreamChunk) ∧
    (∀ c : ChatStreamChunk, ∀ s : String,
      mapStreamChunk (Except.ok c) = Except.ok s ↔
        ∃ choice rest, c.choices = choice :: rest ∧ choice.delta.content = some s) ∧
    (∀ c : ChatStreamChunk,
      mapStreamChunk (Except.ok c) = Except.error LlmError.EmptyResponse ↔
        (c.choices.head?.bind fun choice => choice.delta.content) = none) := by
  refine ⟨by simp [stream_chat_completion, hs], List.length_map frames mapStreamChunk,
    fun i => List.getElem?_map mapStreamChunk frames i, ?_, ?_⟩
  · intro c s
    cases hr : c.choices with
    | nil => simp [mapStreamChunk, hr]
    | cons choice rest =>
      cases hc : choice.delta.content <;> simp [mapStreamChunk, hr, hc]
  · intro c
    cases hr : c.choices with
    | nil => simp [mapStreamChunk, hr]
    | cons choice rest =>
      cases hc : choice.delta.content <;> simp [mapStreamChunk, hr, hc]

/-- C6 witness: the theorem applied to the concrete transport stub
`demoStream`; the role-only and finish-reason-only frames each surface as one
`Err(EmptyResponse)` element around the `Ok "ls"` element. -/
theorem C6_frames_mapped_independently_witness :
    stream_chat_completion demoConfig demoStream demoMessages =
      Except.ok [Except.error LlmError.EmptyResponse, Except.ok "ls",
        Except.error LlmError.EmptyResponse] := by
  have h := C6_frames_mapped_independently demoConfig demoStream demoMessages
    demoFrames rfl
  rw [h.1]
  rfl

/-- Recognizer of `Err(ApiError)` output elements. -/
def isApiErrorElem : Except LlmError String → Bool
  | Except.error (LlmError.ApiError _) => true
  | _ => false

/-- A successfully received frame never maps to an `ApiError` element. -/
theorem mapStreamChunk_ok_not_apiError (c : ChatStreamChunk) :
    isApiErrorElem (mapStreamChunk (Except.ok c)) = false := by
  cases hr : c.choices with
  | nil => simp [mapStreamChunk, hr, isApiErrorElem]
  | cons choice rest =>
    cases hc : choice.delta.content <;> simp [mapStreamChunk, hr, hc, isApiErrorElem]

/-- C7: when the transport delivers some successfully received frames and then
fails (the raw frame sequence ends at the transport error), the output
sequence contains exactly one `Err(ApiError)` element, it is the final
element, and nothing follows it: the output is the elementwise image of the
successful frames followed by that single terminal error. -/
theorem C7_transport_error_terminal (config : LlmConfig)
    (createStream : CreateChatCompletionRequest →
      Except OpenAIError (List (Except OpenAIError ChatStreamChunk)))
    (messages : List ChatMessage)
    (pre : List ChatStreamChunk) (e : OpenAIError)
    (hs : createStream (buildRequest config messages) =
      Except.ok (pre.map Except.ok ++ [Except.error e])) :
    ∃ out, stream_chat_completion config createStream messages = Except.ok out ∧
      out = (pre.map fun c => mapStreamChunk (Except.ok c)) ++
        [Except.error (LlmError.ApiError e)] ∧
      out.length = pre.length + 1 ∧
      out.getLast? = some (Except.error (LlmError.ApiError e)) ∧
      out.countP isApiErrorElem = 1 := by
  refine ⟨(pre.map Except.ok ++ [Except.error e]).map mapStreamChunk,
    by simp [stream_chat_completion, hs], ?_, ?_, ?_, ?_⟩
  · simp [mapStreamChunk]
  · simp
  · rw [List.map_append, List.map_singleton, List.getLast?_concat]
    rfl
  · rw [List.map_append, List.countP_append, List.map_map]
    have h0 : List.countP isApiErrorElem (pre.map (mapStreamChunk ∘ Except.ok)) = 0 := by
      rw [List.countP_eq_zero]
      intro a ha
      rcases List.mem_map.mp ha with ⟨c, _, hc⟩
      rw [← hc]
      simp [Function.comp, mapStreamChunk_ok_not_apiError c]
    rw [h0]
    rfl

/-- C7 witness: the theorem applied to `failStream`, which delivers one
content frame and then a connection reset; the output is `Ok "ls"` followed by
the single terminal `Err(ApiError)`. -/
theorem C7_transport_error_terminal_witness :
    stream_chat_completion demoConfig failStream demoMessages =
      Except.ok [Except.ok "ls",
        Except.error (LlmError.ApiError { msg := "connection reset" })] := by
  obtain ⟨out, h1, h2, -, -, -⟩ := C7_transport_error_terminal demoConfig failStream
    demoMessages [contentChunk] { msg := "connection reset" } rfl
  rw [h1, h2]
  rfl

/-- C8: constructing the service fails with `ApiKeyMissing` for every settings
value whose API key is absent, and succeeds for every settings value with a
key present.  `LlmService.new` is a pure constructor with no provider
argument, so no request is built and no network activity can occur in either
case. -/
theorem C8_new_requires_api_key (config : LlmConfig) :
    (config.api_key = none →
      LlmService.new config = Except.error LlmError.ApiKeyMissing) ∧
    (∀ k, config.api_key = some k →
      ∃ s : LlmService, LlmService.new config = Except.ok s) := by
  constructor
  · intro h
    unfold LlmService.new
    rw [h]
  · intro k h
    unfold LlmService.new
    rw [h]
    exact ⟨_, rfl⟩

/-- C8 witness: the theorem applied to a keyless settings value and to one
carrying a key. -/
theorem C8_new_requires_api_key_witness :
    LlmService.new noKeyConfig = Except.error LlmError.ApiKeyMissing ∧
    ∃ s : LlmService, LlmService.new demoConfig = Except.ok s :=
  ⟨(C8_new_requires_api_key noKeyConfig).1 rfl,
   (C8_new_requires_api_key demoConfig).2 "sk-demo" rfl⟩

/-- C9: on a provider response with an empty choices list, blocking
`chat_completion` is not total — the unguarded `response.choices[0]` panics
(outcome `none` in the embedding) — whereas the streaming mapper handles the
same shape totally, yielding `Err(EmptyResponse)` for a frame with an empty
choices list. -/
theorem C9_empty_choices_blocking_panics (config : LlmConfig)
    (provider : CreateChatCompletionRequest → Except OpenAIError CreateChatCompletionResponse)
    (messages : List ChatMessage)
    (hp : provider (buildRequest config messages) = Except.ok { choices := [] }) :
    (chat_completion config provider messages).2 = none ∧
    mapStreamChunk (Except.ok { choices := [] }) =
      Except.error LlmError.EmptyResponse := by
  constructor
  · simp [chat_completion, hp]
  · rfl

/-- C9 witness: the theorem applied to `emptyChoicesStub`, which answers every
request with an empty choices vector. -/
theorem C9_empty_choices_blocking_panics_witness :
    (chat_completion demoConfig emptyChoicesStub demoMessages).2 = none ∧
    mapStreamChunk (Except.ok { choices := [] }) =
      Except.error LlmError.EmptyResponse :=
  C9_empty_choices_blocking_panics demoConfig emptyChoicesStub demoMessages rfl

/-- C10: for every settings value with `max_tokens = Some n`, the cap placed
in the built request (used identically by the blocking and the streaming
path) is `n` narrowed by `as u16`, i.e. `n % 2 ^ 16`; hence for every
`n ≥ 2 ^ 16` the cap sent to the provider differs from the configured
value. -/
theorem C10_max_tokens_narrowed (config : LlmConfig)
    (messages : List ChatMessage) (n : Nat)
    (h : config.max_tokens = some n) :
    (buildRequest config messages).max_tokens = some (n % 2 ^ 16) ∧
    (2 ^ 16 ≤ n → (buildRequest config messages).max_tokens ≠ some n) := by
  have h1 : (buildRequest config messages).max_tokens = some (n % 2 ^ 16) := by
    simp [buildRequest, h]
  refine ⟨h1, ?_⟩
  intro hn heq
  rw [h1] at heq
  have h2 : n % 2 ^ 16 < 2 ^ 16 := Nat.mod_lt _ (by norm_num)
  have h3 : n % 2 ^ 16 = n := Option.some.inj heq
  omega

/-- C10 witness: the theorem applied to a configuration with
`max_tokens = Some 70000`; the request carries 70000 mod 2 ^ 16 = 4464, not
70000. -/
theorem C10_max_tokens_narrowed_witness :
    (buildRequest bigTokConfig demoMessages).max_tokens = some 4464 ∧
    (buildRequest bigTokConfig demoMessages).max_tokens ≠ some 70000 := by
  have h := C10_max_tokens_narrowed bigTokConfig demoMessages 70000 rfl
  exact ⟨by rw [h.1]; decide, h.2 (by norm_num)⟩
